import Mathlib

/-!
Verification of the enemy behavior core of TheSeeker
(`src/game/src/game/enemy.rs`), shallowly embedded in Lean 4.

Conventions of the embedding:
* `f32` scalars are modelled as `ℚ`; machine-precision rounding is not
  modelled (every comparison in the source is against exact constants).
* Bevy ECS systems become pure per-entity step functions: the components a
  system reads form the input record, and everything it writes (component
  fields, the deferred `TransitionQueue`/`AddQueue`, spawned entities) forms
  the output record.
* Library / backend calls that are not part of the provided sources
  (spatial queries, the ballistic two-point solver `Projectile::with_vel`,
  `ballistic_speed`) enter as explicit parameters, so every claim is settled
  against the control flow that *is* in the source.
-/

set_option autoImplicit false
set_option maxRecDepth 10000

namespace TheSeeker

/-- `enum Role` from enemy.rs: assigned at spawn, immutable. -/
inductive Role
  | Melee
  | Ranged
deriving DecidableEq, Repr

/-- `enum Range` from enemy.rs: recomputed every tick by `check_player_range`. -/
inductive Range
  | Melee
  | Ranged
  | Aggro
  | Deaggro
  | Far
  | None
deriving DecidableEq, Repr

/-- `impl Range` constants, enemy.rs lines 528-535. -/
def Range.MELEE : ℚ := 14

/-- `Range::AGGRO`. -/
def Range.AGGRO : ℚ := 50

/-- `Range::RANGED`. -/
def Range.RANGED : ℚ := 60

/-- `Range::DEAGGRO`. -/
def Range.DEAGGRO : ℚ := 70

/-- `enum Facing` (from gentstate, used throughout enemy.rs). -/
inductive Facing
  | Left
  | Right
deriving DecidableEq, Repr

/-- `enum Navigation` from enemy.rs: Grounded | Blocked. -/
inductive Navigation
  | Grounded
  | Blocked
deriving DecidableEq, Repr

/-- Primary behavior-state values, with the per-variant timer payloads the
source attaches to each tag component (`Waiting{ticks,max_ticks}` etc.). -/
inductive StateVal
  | patrolling
  | aggroed
  | waiting (ticks maxTicks : Nat)
  | walking (ticks maxTicks : Nat)
  | chasing
  | meleeAttack (ticks : Nat)
  | rangedAttack (target : Nat) (ticks : Nat)
  | defense
deriving DecidableEq, Repr

/-- The state tags a queued transition removes (`T::new_transition` records
which marker is replaced). -/
inductive Tag
  | patrolling
  | aggroed
  | waiting
  | walking
  | chasing
  | meleeAttack
  | rangedAttack
  | defense
deriving DecidableEq, Repr

/-- One entry of the `TransitionQueue`: remove the `src` tag, insert `dst`. -/
structure TransitionReq where
  src : Tag
  dst : StateVal
deriving DecidableEq, Repr

/-- What `check_player_range` observes about the single player entity:
its id, whether it carries `Stealthing`, the planar distance to this enemy
(the scalar the source computes with `Vec2::distance`), and its x position. -/
structure PlayerObs where
  id : Nat
  stealth : Bool
  dist : ℚ
  posX : ℚ
deriving DecidableEq, Repr

/-- Per-enemy input of `check_player_range` (enemy.rs lines 551-636). -/
structure ClassifyIn where
  enemyX : ℚ
  facing : Facing
  role : Role
  isAggroed : Bool
  isMeleeing : Bool
  isDefending : Bool
  player : Option PlayerObs
deriving DecidableEq, Repr

/-- The three components `check_player_range` writes. -/
structure ClassifyOut where
  range : Range
  target : Option Nat
  facing : Facing
deriving DecidableEq, Repr

/-- The "set range and target" cascade of `check_player_range`,
enemy.rs lines 609-628: each branch assigns both `*range` and `target.0`. -/
def classifyDistance (role : Role) (pid : Nat) (d : ℚ) : Range × Option Nat :=
  if d ≤ Range.MELEE then (Range.Melee, some pid)
  else if d ≤ Range.AGGRO then (Range.Aggro, some pid)
  else if role = Role.Ranged ∧ d ≤ Range.RANGED then (Range.Ranged, some pid)
  else if role = Role.Melee ∧ d ≤ Range.DEAGGRO then
    (Range.Deaggro, some pid)
  else (Range.Far, none)

/-- `check_player_range`, enemy.rs lines 551-636: the stealth branch
`continue`s before the facing update; otherwise facing is updated while
aggroed and not mid-attack/defense, then the distance cascade overwrites
`Range` and `Target`. -/
def check_player_range (c : ClassifyIn) : ClassifyOut :=
  match c.player with
  | some p =>
    if p.stealth then
      ⟨Range.Deaggro, none, c.facing⟩
    else
      let f :=
        if c.isAggroed && !c.isMeleeing && !c.isDefending then
          if c.enemyX > p.posX then Facing.Right
          else if c.enemyX < p.posX then Facing.Left
          else c.facing
        else c.facing
      let rt := classifyDistance c.role p.id p.dist
      ⟨rt.1, rt.2, f⟩
  | none => ⟨Range.None, none, c.facing⟩

/-- The priority table of spec §4.1, written from the spec's words for
comparison against the source classifier: stealth forces Deaggro and clears
the target; else `d ≤ 14 → Melee`, `d ≤ 50 → Aggro`,
`d ≤ 60 ∧ Ranged → Ranged`, `d ≤ 70 ∧ Melee → Deaggro`, else Far
(target set in the first four cases, cleared on Far); no player → None. -/
def rangeTableSpec (player : Option PlayerObs) (role : Role) :
    Range × Option Nat :=
  match player with
  | none => (Range.None, none)
  | some p =>
    if p.stealth then (Range.Deaggro, none)
    else if p.dist ≤ 14 then (Range.Melee, some p.id)
    else if p.dist ≤ 50 then (Range.Aggro, some p.id)
    else if p.dist ≤ 60 ∧ role = Role.Ranged then (Range.Ranged, some p.id)
    else if p.dist ≤ 70 ∧ role = Role.Melee then (Range.Deaggro, some p.id)
    else (Range.Far, none)

/-- C1: each tick the range classifier overwrites `Range` and `Target` as a
total priority function of distance, role and the target's stealth flag,
matching the spec table (including its boundary values 14, 50, 60, 70, since
the equality is over every rational distance). -/
theorem check_player_range_matches_table (c : ClassifyIn) :
    ((check_player_range c).range, (check_player_range c).target) =
      rangeTableSpec c.player c.role := by
  rcases c with ⟨ex, f, role, a, m, dfn, player⟩
  cases player with
  | none => rfl
  | some p =>
    rcases p with ⟨pid, stealth, d, px⟩
    cases stealth with
    | true => rfl
    | false =>
      show classifyDistance role pid d = _
      simp only [classifyDistance, rangeTableSpec, Range.MELEE, Range.AGGRO,
        Range.RANGED, Range.DEAGGRO]
      split_ifs <;> first | rfl | tauto

/-- Per-enemy output of the `aggro` handler: the optional `velocity.x`
write and the queued transitions. -/
structure AggroOut where
  velX : Option ℚ
  trans : List TransitionReq
deriving DecidableEq, Repr

/-- `aggro`, enemy.rs lines 771-822: runs only for enemies that are both
`Aggroed` and `Waiting`; routes by target presence, range and role. -/
def aggro (role : Role) (range : Range) (target : Option Nat) : AggroOut :=
  match target with
  | some p =>
    if range = Range.Far then
      ⟨none, [⟨Tag.aggroed, StateVal.patrolling⟩]⟩
    else if range = Range.Melee then
      match role with
      | Role.Melee => ⟨none, [⟨Tag.waiting, StateVal.meleeAttack 0⟩]⟩
      | Role.Ranged => ⟨some 0, [⟨Tag.waiting, StateVal.defense⟩]⟩
    else if role = Role.Melee then
      ⟨none, [⟨Tag.waiting, StateVal.chasing⟩]⟩
    else
      ⟨none, [⟨Tag.waiting, StateVal.rangedAttack p 0⟩]⟩
  | none => ⟨none, [⟨Tag.aggroed, StateVal.patrolling⟩]⟩

/-- The role-by-range routing table of spec §4.2 / §8, written from the
spec's words: no target or Far → Aggroed→Patrolling; Melee range with Melee
role → Waiting→MeleeAttack; Melee range with Ranged role → zero x-velocity
and Waiting→Defense; any other range → Waiting→Chasing for Melee role,
Waiting→RangedAttack{target,0} for Ranged role. -/
def aggroTableSpec (role : Role) (range : Range) (target : Option Nat) :
    AggroOut :=
  match target with
  | none => ⟨none, [⟨Tag.aggroed, StateVal.patrolling⟩]⟩
  | some t =>
    match range, role with
    | Range.Far, _ => ⟨none, [⟨Tag.aggroed, StateVal.patrolling⟩]⟩
    | Range.Melee, Role.Melee =>
      ⟨none, [⟨Tag.waiting, StateVal.meleeAttack 0⟩]⟩
    | Range.Melee, Role.Ranged => ⟨some 0, [⟨Tag.waiting, StateVal.defense⟩]⟩
    | _, Role.Melee => ⟨none, [⟨Tag.waiting, StateVal.chasing⟩]⟩
    | _, Role.Ranged => ⟨none, [⟨Tag.waiting, StateVal.rangedAttack t 0⟩]⟩

/-- C2: for an Aggroed enemy with sub-state Waiting, the aggro handler
routes exactly by the role-by-range table, for all 2×6 role×range
combinations and any target. -/
theorem aggro_matches_table (role : Role) (range : Range)
    (target : Option Nat) :
    aggro role range target = aggroTableSpec role range target := by
  cases target <;> cases role <;> cases range <;> rfl

/-! ## Kinematic collision resolver: the sliding loop of `move_collide`
(enemy.rs lines 1253-1281). The spatial-query backend is abstract: one
shape-cast response per loop iteration. -/

/-- Status of a shape-cast time-of-impact, as `move_collide` distinguishes
it (`first_hit.status != TOIStatus::Penetrating`). -/
inductive TOIStatusM
  | Converged
  | Penetrating
deriving DecidableEq, Repr

/-- A shape-cast hit: its status and the `normal1` sliding plane. -/
structure CastHit where
  status : TOIStatusM
  normal : ℚ × ℚ
deriving DecidableEq, Repr

/-- The per-agent state the sliding loop reads and writes. -/
structure SlideState where
  vel : ℚ × ℚ
  nav : Navigation
  knocked : Bool
deriving DecidableEq, Repr

/-- `Vec2::dot`. -/
def dot (a b : ℚ × ℚ) : ℚ := a.1 * b.1 + a.2 * b.2

/-- Result of one iteration of the sliding loop: continue with a new state,
or exit the loop with the final state. -/
inductive SlideOutcome
  | next (s : SlideState)
  | exit (s : SlideState)
deriving DecidableEq, Repr

/-- One iteration of the `while let Ok(shape_dir) = Direction2d::new(..)`
loop: exit when the velocity direction is degenerate (`Direction2d::new`
fails on a zero vector), when the cast reports no hit, or when the hit is
penetrating; otherwise remove the hit normal's component from the velocity
(`v - n * (v ⬝ n)`) and mark `Navigation::Blocked` unless knocked back. -/
def slideStep (r : Option CastHit) (s : SlideState) : SlideOutcome :=
  if s.vel = (0, 0) then SlideOutcome.exit s
  else
    match r with
    | none => SlideOutcome.exit s
    | some h =>
      if h.status = TOIStatusM.Penetrating then SlideOutcome.exit s
      else
        let n := h.normal
        let d := dot s.vel n
        SlideOutcome.next
          { vel := (s.vel.1 - n.1 * d, s.vel.2 - n.2 * d),
            nav := if s.knocked then s.nav else Navigation.Blocked,
            knocked := s.knocked }

/-- The sliding loop, fuelled: `resp i` is the backend's shape-cast response
at iteration `i`; `none` as overall result means the loop did not exit
within `fuel` iterations. -/
def slideLoop (resp : Nat → Option CastHit) :
    Nat → Nat → SlideState → Option SlideState
  | _, 0, _ => none
  | i, fuel + 1, s =>
    match slideStep (resp i) s with
    | SlideOutcome.exit t => some t
    | SlideOutcome.next t => slideLoop resp (i + 1) fuel t

/-- A backend response that triggers a loop exit: no hit, or a penetrating
hit. -/
def exitResponse (r : Option CastHit) : Bool :=
  match r with
  | none => true
  | some h => h.status == TOIStatusM.Penetrating

/-- A backend that forever reports a clean (non-penetrating) hit whose
normal `(0, 1)` is orthogonal to the stuck agent's velocity `(1, 0)`. -/
def orthConstResp : Nat → Option CastHit :=
  fun _ => some ⟨TOIStatusM.Converged, (0, 1)⟩

/-- A knocked-back agent moving horizontally; the orthogonal normal leaves
its velocity unchanged, so the loop body is the identity on this state. -/
def slideStuckState : SlideState :=
  { vel := (1, 0), nav := Navigation.Grounded, knocked := true }

/-- Under `orthConstResp`, every iteration maps `slideStuckState` to itself
without exiting. -/
theorem slideStep_stuck_fixpoint (i : Nat) :
    slideStep (orthConstResp i) slideStuckState =
      SlideOutcome.next slideStuckState := by
  simp [slideStep, slideStuckState, orthConstResp, dot]

/-- Under `orthConstResp`, no amount of fuel makes the loop exit from
`slideStuckState`, at any starting iteration index. -/
theorem slideLoop_stuck_none (fuel : Nat) :
    ∀ i : Nat, slideLoop orthConstResp i fuel slideStuckState = none := by
  induction fuel with
  | zero => intro i; rfl
  | succ n ih =>
    intro i
    simp only [slideLoop, slideStep_stuck_fixpoint]
    exact ih (i + 1)

/-- C3 counterexample: the sliding loop does not terminate for every
backend response — for the concrete backend that always reports a clean
hit with normal orthogonal to the velocity, the loop never exits: its body
fixes the state while the guard keeps passing. -/
theorem move_collide_slide_nonterminating :
    slideStep (orthConstResp 0) slideStuckState =
        SlideOutcome.next slideStuckState ∧
      ¬ ∃ fuel : Nat,
          (slideLoop orthConstResp 0 fuel slideStuckState).isSome := by
  refine ⟨slideStep_stuck_fixpoint 0, ?_⟩
  rintro ⟨fuel, hsome⟩
  rw [slideLoop_stuck_none fuel 0] at hsome
  exact Bool.noConfusion hsome

/-- C3 amended: the sliding loop terminates whenever the agent's velocity
is degenerate, or the backend's response at some iteration reports no hit
or a penetrating hit — it exits within `k + 1` iterations in that case. -/
theorem slideLoop_exits (resp : Nat → Option CastHit) (s : SlideState)
    (k : Nat) (h : s.vel = (0, 0) ∨ exitResponse (resp k) = true) :
    (slideLoop resp 0 (k + 1) s).isSome = true := by
  rcases h with hv | hr
  · cases k <;> simp [slideLoop, slideStep, hv]
  · have key : ∀ j : Nat, ∀ i : Nat, ∀ t : SlideState,
        exitResponse (resp (i + j)) = true →
        (slideLoop resp i (j + 1) t).isSome = true := by
      intro j
      induction j with
      | zero =>
        intro i t hre
        simp only [Nat.add_zero] at hre
        have hexit : slideStep (resp i) t = SlideOutcome.exit t := by
          unfold slideStep
          cases hcase : resp i with
          | none => split <;> rfl
          | some hit =>
            have hpen : hit.status = TOIStatusM.Penetrating := by
              rw [hcase] at hre
              simpa [exitResponse] using hre
            split
            · rfl
            · simp [hpen]
        simp [slideLoop, hexit]
      | succ m ih =>
        intro i t hre
        simp only [slideLoop]
        cases hstep : slideStep (resp i) t with
        | exit u => rfl
        | next u =>
          have hidx : i + (m + 1) = (i + 1) + m := by omega
          rw [hidx] at hre
          exact ih (i + 1) u hre
    exact key k 0 s (by rw [Nat.zero_add]; exact hr)

/-- C3 amended witness instance: with a backend whose first response is "no
hit", the loop exits immediately. -/
theorem slideLoop_exits_witness :
    (slideStuckState.vel = (0, 0) ∨
        exitResponse ((fun _ : Nat => (none : Option CastHit)) 0) = true) ∧
      (slideLoop (fun _ => none) 0 (0 + 1) slideStuckState).isSome = true :=
  ⟨Or.inr (by decide),
    slideLoop_exits (fun _ => none) slideStuckState 0 (Or.inr (by decide))⟩

/-! ## Death and decay (enemy.rs lines 1339-1373). -/

/-- Component kinds an enemy entity may carry, at the granularity the death
strip distinguishes. -/
inductive Comp
  | transform
  | gent
  | dead
  | enemy
  | role
  | health
  | target
  | range
  | facing
  | navigation
  | collider
  | linearVelocity
  | transitionQueue
  | addQueue
deriving DecidableEq, Repr

/-- The retained set of the `dead` system:
`retain::<(TransformBundle, Gent, Dead, Enemy, Role)>`. -/
def minimalBundle : List Comp :=
  [Comp.transform, Comp.gent, Comp.dead, Comp.enemy, Comp.role]

/-- Input of the `dead` system for one enemy: its `Dead{ticks}` counter,
the global `KillCount`, and which components the entity carries. -/
structure DeadIn where
  ticks : Nat
  killCount : Nat
  comps : Comp → Bool

/-- Output of the `dead` system: updated counter, kill count, component
set, and whether `Dead` was swapped for `Decay` this tick. -/
structure DeadOut where
  ticks : Nat
  killCount : Nat
  comps : Comp → Bool
  toDecay : Bool

/-- `dead`, enemy.rs lines 1339-1356: on entry (`ticks == 0`) increment the
global kill counter and retain only the minimal bundle; at `ticks == 8 * 7`
swap `Dead` for `Decay`; always increment the tick counter. -/
def dead (i : DeadIn) : DeadOut :=
  let kc := if i.ticks = 0 then i.killCount + 1 else i.killCount
  let comps :=
    if i.ticks = 0 then fun c => i.comps c && decide (c ∈ minimalBundle)
    else i.comps
  { ticks := i.ticks + 1,
    killCount := kc,
    comps := comps,
    toDecay := i.ticks == 8 * 7 }

/-- Output of `decay_despawn` for one decayed enemy. -/
structure DecayOut where
  gfxGetsDecay : Bool
  despawned : Bool
deriving DecidableEq, Repr

/-- `decay_despawn`, enemy.rs lines 1362-1373: insert `Decay` on the
graphical counterpart when it resolves, and recursively despawn the logical
entity in the same pass. -/
def decay_despawn (gfxResolves : Bool) : DecayOut :=
  ⟨gfxResolves, true⟩

/-- C4: on Dead entry the global kill counter is incremented by exactly one
and the entity is stripped to the minimal bundle (and only then); `Dead` is
swapped for `Decay` exactly at tick 56; on the tick an enemy is observed
with `Decay`, the marker moves to the resolvable graphical counterpart and
the logical entity is despawned. -/
theorem dead_strip_decay_despawn :
    (∀ i : DeadIn, i.ticks = 0 →
        (dead i).killCount = i.killCount + 1 ∧
          (dead i).comps =
            fun c => i.comps c && decide (c ∈ minimalBundle)) ∧
      (∀ i : DeadIn, i.ticks ≠ 0 →
        (dead i).killCount = i.killCount ∧ (dead i).comps = i.comps) ∧
      (∀ i : DeadIn, (dead i).toDecay = (i.ticks == 56)) ∧
      (∀ g : Bool,
        (decay_despawn g).despawned = true ∧
          (decay_despawn g).gfxGetsDecay = g) :=
  ⟨fun i h => by simp [dead, h],
    fun i h => by simp [dead, h],
    fun i => by simp [dead],
    fun g => ⟨rfl, rfl⟩⟩

/-- C4 witness instance: a fresh death increments the kill count from 5 to
6 and drops the Health component; at tick 56 the Decay swap fires; the
decayed entity is despawned with the marker moved to its gfx entity. -/
theorem dead_strip_decay_despawn_witness :
    (dead ⟨0, 5, fun _ => true⟩).killCount = 5 + 1 ∧
      (dead ⟨0, 5, fun _ => true⟩).comps Comp.health = false ∧
      (dead ⟨3, 5, fun _ => true⟩).killCount = 5 ∧
      (dead ⟨56, 6, fun _ => true⟩).toDecay = true ∧
      (decay_despawn true).despawned = true := by
  refine ⟨(dead_strip_decay_despawn.1 ⟨0, 5, fun _ => true⟩ rfl).1, ?_, ?_, ?_, ?_⟩
  · rw [(dead_strip_decay_despawn.1 ⟨0, 5, fun _ => true⟩ rfl).2]
    decide
  · exact (dead_strip_decay_despawn.2.1 ⟨3, 5, fun _ => true⟩ (by decide)).1
  · rw [dead_strip_decay_despawn.2.2.1 ⟨56, 6, fun _ => true⟩]; rfl
  · exact (dead_strip_decay_despawn.2.2.2 true).1

/-! ## Ranged attack and the ballistic aim solver
(enemy.rs lines 824-992). -/

/-- `RangedAttack::STARTUP`. -/
def RangedAttack.STARTUP : Nat := 6

/-- Modelled from the spec: the environment of the ballistic aiming block.
`withVelSq` stands for `Projectile::with_vel` (crate::game::attack::
arc_attack, not among the provided sources), which per spec §4.3 searches a
two-point boundary-value launch velocity at a given candidate speed and may
find none; it is modelled as an abstract function of the *squared* speed so
that every quantity stays rational (speed enters the source only through
`with_vel` and the `*= 1.15` retry scaling, and squaring is injective on
nonnegative speeds). `ceiling` is the probed clearance after the
projectile-radius margin, `gravity` the derived gravity magnitude, `deltaX`
the signed horizontal offset to the target. -/
structure BallisticEnv where
  withVelSq : ℚ → Option (ℚ × ℚ)
  gravity : ℚ
  ceiling : ℚ
  deltaX : ℚ

/-- Rust `f32::signum` restricted to rationals: `1` for nonnegative
(`+0.0` has sign `1.0`), `-1` for negative. -/
def sgn (q : ℚ) : ℚ := if q < 0 then -1 else 1

/-- The fixed default arc of enemy.rs lines 929-934:
`Vec2::new(134.0 * delta_x.signum(), 151.0)`. -/
def defaultArc (deltaX : ℚ) : ℚ × ℚ := (134 * sgn deltaX, 151)

/-- `max_proj_h` of enemy.rs line 942: `vel.y.powi(2) / (2.0 * gravity)`. -/
def apexHeight (gravity : ℚ) (v : ℚ × ℚ) : ℚ := v.2 ^ 2 / (2 * gravity)

/-- The ceiling handling of enemy.rs lines 942-958: if the found arc's apex
reaches the ceiling, cap the vertical component at `√(2·gravity·ceiling)`,
scale the horizontal component by the same ratio, and re-run the solver at
the speed of that capped vector (in squared form:
`vySq = ceiling·2·gravity`, `vxSq = vySq/velY² · velX²`); the re-solved arc
replaces the original when it exists, otherwise the original is kept
("attempts to fire anyway, even though ceiling will always block the
shot"). -/
def clampSolution (env : BallisticEnv) (p : ℚ × ℚ) : ℚ × ℚ :=
  if env.ceiling ≤ apexHeight env.gravity p then
    let vySq := env.ceiling * (2 * env.gravity)
    let vxSq := vySq / p.2 ^ 2 * p.1 ^ 2
    match env.withVelSq (vxSq + vySq) with
    | some p2 => p2
    | none => p
  else p

/-- The retry loop of enemy.rs lines 935-968, on squared speeds
(`speed *= 1.15` becomes `speedSq *= 529/400`): returns the accepted
solution if some attempt succeeded (after ceiling clamping), whether the
exhaustion warning was logged, and how many solver attempts were made. -/
def solveLoop (env : BallisticEnv) : Nat → ℚ → Option (ℚ × ℚ) × Bool × Nat
  | 0, _ => (none, false, 0)
  | n + 1, speedSq =>
    match env.withVelSq speedSq with
    | some p => (some (clampSolution env p), false, 1)
    | none =>
      if n = 0 then (none, true, 1)
      else
        let r := solveLoop env n (speedSq * (529 / 400))
        (r.1, r.2.1, r.2.2 + 1)

/-- The whole aiming block: `max_attempts = 10`, and the default arc is
used when no attempt succeeded. -/
def ballisticFinal (env : BallisticEnv) (speed0Sq : ℚ) :
    (ℚ × ℚ) × Bool × Nat :=
  let r := solveLoop env 10 speed0Sq
  (r.1.getD (defaultArc env.deltaX), r.2.1, r.2.2)

/-- Per-enemy input of the `ranged_attack` system: the components read,
plus the abstracted backend values (ceiling probe result before the `-5`
margin, gravity, the `ballistic_speed` heuristic in squared form, the
horizontal offset and the solver). -/
structure RangedIn where
  knocked : Bool
  ticks : Nat
  targetResolves : Bool
  range : Range
  velX : ℚ
  withVelSq : ℚ → Option (ℚ × ℚ)
  gravity : ℚ
  ceilingProbe : ℚ
  deltaX : ℚ
  speed0Sq : ℚ

/-- Per-enemy output of `ranged_attack`: updated tick counter, x velocity,
queued transitions, queued Idle marker, the spawned projectile's velocity
when one was spawned this tick, and whether the no-solution warning was
logged. -/
structure RangedOut where
  ticks : Nat
  velX : ℚ
  trans : List TransitionReq
  addIdle : Bool
  fired : Option (ℚ × ℚ)
  warned : Bool

/-- Loop body of `ranged_attack`, enemy.rs lines 845-991: zero x-velocity
on entry; increment ticks; at `ticks ≥ 15·8` queue the return to Waiting
and an Idle marker; if the recorded target no longer resolves, `continue`
(skipping the firing block and the melee override); at
`ticks == STARTUP·8` run the aiming block (ceiling margin `-5.0`) and spawn
the projectile; if range is Melee, queue the transition to Defense. -/
def ranged_attack_body (i : RangedIn) : RangedOut :=
  let velX := if i.ticks = 0 then 0 else i.velX
  let ticks := i.ticks + 1
  let baseTrans : List TransitionReq :=
    if 15 * 8 ≤ ticks then [⟨Tag.rangedAttack, StateVal.waiting 0 0⟩]
    else []
  let addIdle := decide (15 * 8 ≤ ticks)
  if i.targetResolves then
    let env : BallisticEnv :=
      ⟨i.withVelSq, i.gravity, i.ceilingProbe - 5, i.deltaX⟩
    let sol :=
      if ticks = RangedAttack.STARTUP * 8 then
        some (ballisticFinal env i.speed0Sq)
      else none
    let meleeTrans : List TransitionReq :=
      if i.range = Range.Melee then [⟨Tag.rangedAttack, StateVal.defense⟩]
      else []
    { ticks := ticks, velX := velX, trans := baseTrans ++ meleeTrans,
      addIdle := addIdle, fired := Option.map (fun s => s.1) sol,
      warned := (Option.map (fun s => s.2.1) sol).getD false }
  else
    { ticks := ticks, velX := velX, trans := baseTrans,
      addIdle := addIdle, fired := none, warned := false }

/-- The `ranged_attack` system: its query carries `Without<Knockback>`, so
a knocked-back enemy is not matched and nothing of it is read or written. -/
def ranged_attack (i : RangedIn) : RangedOut :=
  if i.knocked then ⟨i.ticks, i.velX, [], false, none, false⟩
  else ranged_attack_body i

/-- C5: when the recorded target entity no longer resolves, the firing
side-effect is skipped that tick, the attack tick counter still increments,
and once the counter reaches 120 the transition back to Waiting is queued
regardless of range. -/
theorem ranged_attack_target_gone (i : RangedIn) (hk : i.knocked = false)
    (ht : i.targetResolves = false) :
    (ranged_attack i).ticks = i.ticks + 1 ∧
      (ranged_attack i).fired = none ∧
      (15 * 8 ≤ i.ticks + 1 →
        ⟨Tag.rangedAttack, StateVal.waiting 0 0⟩ ∈ (ranged_attack i).trans) := by
  refine ⟨?_, ?_, fun h => ?_⟩
  · simp [ranged_attack, ranged_attack_body, hk, ht]
  · simp [ranged_attack, ranged_attack_body, hk, ht]
  · simp [ranged_attack, ranged_attack_body, hk, ht, h]

/-- C5 witness instance: an attack at tick 119 whose target despawned still
advances to 120 and queues the return to Waiting without firing. -/
theorem ranged_attack_target_gone_witness :
    (ranged_attack ⟨false, 119, false, Range.Aggro, 7, fun _ => none,
          2, 100, 5, 100⟩).ticks = 119 + 1 ∧
      (ranged_attack ⟨false, 119, false, Range.Aggro, 7, fun _ => none,
          2, 100, 5, 100⟩).fired = none ∧
      ⟨Tag.rangedAttack, StateVal.waiting 0 0⟩ ∈
        (ranged_attack ⟨false, 119, false, Range.Aggro, 7, fun _ => none,
          2, 100, 5, 100⟩).trans := by
  have h := ranged_attack_target_gone
    ⟨false, 119, false, Range.Aggro, 7, fun _ => none, 2, 100, 5, 100⟩
    rfl rfl
  exact ⟨h.1, h.2.1, h.2.2 (by norm_num)⟩

/-- The attempt counter of `solveLoop` never exceeds the fuel. -/
theorem solveLoop_attempts_le (env : BallisticEnv) :
    ∀ n : Nat, ∀ sSq : ℚ, (solveLoop env n sSq).2.2 ≤ n := by
  intro n
  induction n with
  | zero => intro sSq; simp [solveLoop]
  | succ m ih =>
    intro sSq
    unfold solveLoop
    cases env.withVelSq sSq with
    | some p => simp
    | none =>
      by_cases hm : m = 0
      · simp [hm]
      · simpa [hm] using Nat.succ_le_succ (ih (sSq * (529 / 400)))

/-- When every tried squared speed `sSq·(529/400)^j` fails, `solveLoop`
exhausts its fuel, warns, and reports no solution. -/
theorem solveLoop_all_fail (env : BallisticEnv) :
    ∀ n : Nat, 1 ≤ n → ∀ sSq : ℚ,
      (∀ j : Nat, j < n → env.withVelSq (sSq * (529 / 400) ^ j) = none) →
      solveLoop env n sSq = (none, true, n) := by
  intro n
  induction n with
  | zero => intro h; omega
  | succ m ih =>
    intro _ sSq hfail
    have h0 : env.withVelSq sSq = none := by
      have := hfail 0 (Nat.succ_pos m)
      rwa [pow_zero, mul_one] at this
    unfold solveLoop
    rw [h0]
    by_cases hm : m = 0
    · simp [hm]
    · have hrec : solveLoop env m (sSq * (529 / 400)) = (none, true, m) := by
        refine ih (by omega) (sSq * (529 / 400)) (fun j hj => ?_)
        have harg : sSq * (529 / 400) * (529 / 400) ^ j =
            sSq * (529 / 400) ^ (j + 1) := by ring
        rw [harg]
        exact hfail (j + 1) (by omega)
      simp [hm, hrec]

/-- When the first `m` tried squared speeds fail and the `(m+1)`-th
succeeds within the fuel, the loop accepts that (clamped) solution after
exactly `m + 1` attempts, with no warning. -/
theorem solveLoop_first_success (env : BallisticEnv) :
    ∀ n : Nat, ∀ sSq : ℚ, ∀ m : Nat, ∀ p : ℚ × ℚ, m < n →
      (∀ j : Nat, j < m → env.withVelSq (sSq * (529 / 400) ^ j) = none) →
      env.withVelSq (sSq * (529 / 400) ^ m) = some p →
      solveLoop env n sSq = (some (clampSolution env p), false, m + 1) := by
  intro n
  induction n with
  | zero => intro sSq m p hm; omega
  | succ k ih =>
    intro sSq m p hm hfail hsucc
    cases m with
    | zero =>
      rw [pow_zero, mul_one] at hsucc
      unfold solveLoop
      rw [hsucc]
    | succ m1 =>
      have h0 : env.withVelSq sSq = none := by
        have := hfail 0 (Nat.succ_pos m1)
        rwa [pow_zero, mul_one] at this
      have hk : k ≠ 0 := by omega
      have hsuccK : env.withVelSq (sSq * (529 / 400) * (529 / 400) ^ m1) =
          some p := by
        have harg : sSq * (529 / 400) * (529 / 400) ^ m1 =
            sSq * (529 / 400) ^ (m1 + 1) := by ring
        rw [harg]
        exact hsucc
      have hrec := ih (sSq * (529 / 400)) m1 p (by omega)
        (fun j hj => by
          have harg : sSq * (529 / 400) * (529 / 400) ^ j =
              sSq * (529 / 400) ^ (j + 1) := by ring
          rw [harg]
          exact hfail (j + 1) (by omega))
        hsuccK
      unfold solveLoop
      rw [h0]
      simp [hk, hrec]

/-- C8: the aiming search makes at most 10 solver attempts; if every
attempt fails (the tried squared speeds being `speed0Sq·(529/400)^j`, i.e.
the speed scaled by 1.15 after each failed attempt except the last) it
warns and falls back to the fixed default arc `(134·sign(Δx), 151)`; and in
every case a projectile with the block's chosen velocity is spawned at
attack tick `STARTUP·8 = 48`, so firing is never silently dropped. -/
theorem ballistic_retry_fallback :
    (∀ env : BallisticEnv, ∀ sSq : ℚ, (ballisticFinal env sSq).2.2 ≤ 10) ∧
      (∀ env : BallisticEnv, ∀ sSq : ℚ,
        (∀ j : Nat, j < 10 →
          env.withVelSq (sSq * (529 / 400) ^ j) = none) →
        ballisticFinal env sSq = (defaultArc env.deltaX, true, 10)) ∧
      (∀ env : BallisticEnv, ∀ sSq : ℚ, ∀ m : Nat, ∀ p : ℚ × ℚ, m < 10 →
        (∀ j : Nat, j < m →
          env.withVelSq (sSq * (529 / 400) ^ j) = none) →
        env.withVelSq (sSq * (529 / 400) ^ m) = some p →
        ballisticFinal env sSq = (clampSolution env p, false, m + 1)) ∧
      (∀ i : RangedIn, i.knocked = false → i.targetResolves = true →
        i.ticks + 1 = RangedAttack.STARTUP * 8 →
        (ranged_attack i).fired =
          some ((ballisticFinal
            ⟨i.withVelSq, i.gravity, i.ceilingProbe - 5, i.deltaX⟩
            i.speed0Sq).1)) := by
  refine ⟨?_, ?_, ?_, ?_⟩
  · intro env sSq
    exact solveLoop_attempts_le env 10 sSq
  · intro env sSq hfail
    rw [ballisticFinal, solveLoop_all_fail env 10 (by omega) sSq hfail]
    rfl
  · intro env sSq m p hm hfail hsucc
    rw [ballisticFinal, solveLoop_first_success env 10 sSq m p hm hfail hsucc]
    rfl
  · intro i hk ht hticks
    simp [ranged_attack, ranged_attack_body, hk, ht, hticks,
      RangedAttack.STARTUP]

/-- C8 witness instance: with a solver that never succeeds, the block
falls back to the default arc with the warning, and the startup-tick
projectile spawn carries exactly that arc. -/
theorem ballistic_retry_fallback_witness :
    (ballisticFinal ⟨fun _ => none, 2, 95, 7⟩ 100).2.2 ≤ 10 ∧
      ballisticFinal ⟨fun _ => none, 2, 95, 7⟩ 100 =
        (defaultArc 7, true, 10) ∧
      ballisticFinal
          ⟨fun sSq => if sSq = 100 then some (3, 4) else none, 2, 95, 7⟩
          100 =
        (clampSolution
            ⟨fun sSq => if sSq = 100 then some (3, 4) else none, 2, 95, 7⟩
            (3, 4),
          false, 0 + 1) ∧
      (ranged_attack ⟨false, 47, true, Range.Aggro, 3, fun _ => none,
          2, 100, 7, 100⟩).fired = some (defaultArc 7) := by
  refine ⟨ballistic_retry_fallback.1 ⟨fun _ => none, 2, 95, 7⟩ 100,
    ballistic_retry_fallback.2.1 ⟨fun _ => none, 2, 95, 7⟩ 100
      (fun j hj => rfl),
    ballistic_retry_fallback.2.2.1
      ⟨fun sSq => if sSq = 100 then some (3, 4) else none, 2, 95, 7⟩
      100 0 (3, 4) (by omega) (fun j hj => absurd hj (Nat.not_lt_zero j))
      (by norm_num), ?_⟩
  rw [ballistic_retry_fallback.2.2.2
    ⟨false, 47, true, Range.Aggro, 3, fun _ => none, 2, 100, 7, 100⟩
    rfl rfl rfl]
  rw [ballistic_retry_fallback.2.1 ⟨fun _ => none, 2, 100 - 5, 7⟩ 100
    (fun j hj => rfl)]

/-- A concrete ranged-attack input for the ceiling-clamp analysis: the
solver finds the arc `(3, 4)` at the initial squared speed `100` and finds
nothing at any other speed; gravity is `2`; the probed ceiling is `6`, so
the margin-adjusted ceiling is `1`, well below the arc's apex
`4² / (2·2) = 4`. -/
def clampCEx : RangedIn :=
  { knocked := false, ticks := 47, targetResolves := true,
    range := Range.Aggro, velX := 0,
    withVelSq := fun sSq => if sSq = 100 then some (3, 4) else none,
    gravity := 2, ceilingProbe := 6, deltaX := 5, speed0Sq := 100 }

/-- C7 counterexample: the probed ceiling (1) is lower than the apex (4) of
the unconstrained solution, the re-solve at the clamped speed (squared
`9/4 + 4 = 25/4`) finds nothing, and the projectile actually spawned is the
unclamped `(3, 4)` — its apex exceeds the ceiling, so the clamped solution
is not "accepted as final". -/
theorem ceiling_clamp_counterexample :
    (ranged_attack clampCEx).fired = some (3, 4) ∧
      clampCEx.ceilingProbe - 5 < apexHeight clampCEx.gravity (3, 4) ∧
      ¬ apexHeight clampCEx.gravity (3, 4) ≤ clampCEx.ceilingProbe - 5 := by
  refine ⟨?_, by norm_num [clampCEx, apexHeight],
    by norm_num [clampCEx, apexHeight]⟩
  norm_num [ranged_attack, ranged_attack_body, clampCEx,
    RangedAttack.STARTUP, ballisticFinal, solveLoop, clampSolution,
    apexHeight]

/-- C7 amended: when the probed ceiling does not exceed the unconstrained
arc's apex, the clamped components are used only to form a new squared
speed `ceiling·2g + (ceiling·2g)/vy²·vx²`; the solver is re-run at that
speed, its solution (when one exists) is accepted as final, and otherwise
the unclamped solution is kept — whose apex then exceeds the ceiling. -/
theorem ceiling_clamp_amended (env : BallisticEnv) (p : ℚ × ℚ)
    (h : env.ceiling ≤ apexHeight env.gravity p) :
    clampSolution env p =
      (env.withVelSq
        (env.ceiling * (2 * env.gravity) / p.2 ^ 2 * p.1 ^ 2 +
          env.ceiling * (2 * env.gravity))).getD p := by
  simp only [clampSolution, if_pos h]
  cases hv : env.withVelSq
      (env.ceiling * (2 * env.gravity) / p.2 ^ 2 * p.1 ^ 2 +
        env.ceiling * (2 * env.gravity)) <;>
    simp [hv]

/-- Environment for the C7 amended witness: the re-solve at the clamped
squared speed `25/4` succeeds with the arc `(1, 2)`. -/
def clampEnvW : BallisticEnv :=
  ⟨fun sSq => if sSq = 25 / 4 then some (1, 2) else none, 2, 1, 5⟩

/-- C7 amended witness instance: with ceiling 1 under the apex 4 of the arc
`(3, 4)`, the clamp branch returns whatever the solver yields at the
clamped speed. -/
theorem ceiling_clamp_amended_witness :
    clampEnvW.ceiling ≤ apexHeight clampEnvW.gravity ((3 : ℚ), (4 : ℚ)) ∧
      clampSolution clampEnvW ((3 : ℚ), (4 : ℚ)) =
        (clampEnvW.withVelSq
          (clampEnvW.ceiling * (2 * clampEnvW.gravity) /
              ((3 : ℚ), (4 : ℚ)).2 ^ 2 * ((3 : ℚ), (4 : ℚ)).1 ^ 2 +
            clampEnvW.ceiling * (2 * clampEnvW.gravity))).getD
          ((3 : ℚ), (4 : ℚ)) :=
  ⟨by norm_num [clampEnvW, apexHeight],
    ceiling_clamp_amended clampEnvW ((3 : ℚ), (4 : ℚ))
      (by norm_num [clampEnvW, apexHeight])⟩

/-! ## Walking and chasing (enemy.rs lines 1032-1084 and 1162-1223). -/

/-- Modelled from the spec: the numeric direction sign of `Facing`
(`Facing::direction` lives in gentstate.rs, outside the provided sources);
only its role as a sign matters to the claims. -/
def Facing.direction : Facing → ℚ
  | Facing.Right => 1
  | Facing.Left => -1

/-- Per-enemy input of the `walking` system. -/
structure WalkIn where
  knocked : Bool
  nav : Navigation
  facing : Facing
  velX : ℚ
  ticks : Nat
  maxTicks : Nat

/-- Per-enemy output of the `walking` system. -/
structure WalkOut where
  nav : Navigation
  facing : Facing
  velX : ℚ
  ticks : Nat
  trans : List TransitionReq
  addIdle : Bool

/-- Loop body of `walking`, enemy.rs lines 1050-1083: set the patrol
velocity; on timer expiry stop, queue Walking→Waiting{0,240} and Idle and
`continue` (no tick increment); otherwise reverse on `Blocked` (resetting
navigation and flipping facing) and increment the timer. -/
def walking_body (i : WalkIn) : WalkOut :=
  let velX := -20 * i.facing.direction
  if i.maxTicks ≤ i.ticks then
    { nav := i.nav, facing := i.facing, velX := 0, ticks := i.ticks,
      trans := [⟨Tag.walking, StateVal.waiting 0 240⟩], addIdle := true }
  else
    match i.nav with
    | Navigation.Blocked =>
      { nav := Navigation.Grounded,
        facing :=
          match i.facing with
          | Facing.Right => Facing.Left
          | Facing.Left => Facing.Right,
        velX := velX * -1, ticks := i.ticks + 1, trans := [],
        addIdle := false }
    | Navigation.Grounded =>
      { nav := i.nav, facing := i.facing, velX := velX,
        ticks := i.ticks + 1, trans := [], addIdle := false }

/-- The `walking` system: its query carries `Without<Knockback>`, so a
knocked-back enemy is not matched at all. -/
def walking (i : WalkIn) : WalkOut :=
  if i.knocked then ⟨i.nav, i.facing, i.velX, i.ticks, [], false⟩
  else walking_body i

/-- Per-enemy input of the `chasing` system. -/
structure ChaseIn where
  knocked : Bool
  target : Option Nat
  facing : Facing
  role : Role
  range : Range
  nav : Navigation
  velX : ℚ

/-- Per-enemy output of the `chasing` system. -/
structure ChaseOut where
  nav : Navigation
  velX : ℚ
  trans : List TransitionReq

/-- Loop body of `chasing`, enemy.rs lines 1180-1222: only the Melee role
chases; Melee range → stop and queue MeleeAttack; Ranged/Aggro/Deaggro →
move toward the target unless Blocked (then stop, reset navigation, return
to Waiting); any other range or no target → stop and return to Waiting. -/
def chasing_body (i : ChaseIn) : ChaseOut :=
  if i.role ≠ Role.Melee then ⟨i.nav, i.velX, []⟩
  else
    match i.target with
    | some _ =>
      match i.range with
      | Range.Melee => ⟨i.nav, 0, [⟨Tag.chasing, StateVal.meleeAttack 0⟩]⟩
      | Range.Ranged | Range.Aggro | Range.Deaggro =>
        match i.nav with
        | Navigation.Blocked =>
          ⟨Navigation.Grounded, 0, [⟨Tag.chasing, StateVal.waiting 0 0⟩]⟩
        | Navigation.Grounded =>
          ⟨i.nav, -35 * i.facing.direction, []⟩
      | _ => ⟨i.nav, 0, [⟨Tag.chasing, StateVal.waiting 0 0⟩]⟩
    | none => ⟨i.nav, 0, [⟨Tag.chasing, StateVal.waiting 0 0⟩]⟩

/-- The `chasing` system: its query carries `Without<Knockback>`. -/
def chasing (i : ChaseIn) : ChaseOut :=
  if i.knocked then ⟨i.nav, i.velX, []⟩ else chasing_body i

/-- C9: the Walking, Chasing and RangedAttack handlers do not process a
knocked-back enemy at all — tick counters are not incremented, velocity,
facing and navigation are untouched, no transitions or Idle markers are
queued, and no projectile is fired. -/
theorem knockback_excludes_handlers (w : WalkIn) (c : ChaseIn)
    (r : RangedIn) (hw : w.knocked = true) (hc : c.knocked = true)
    (hr : r.knocked = true) :
    walking w = ⟨w.nav, w.facing, w.velX, w.ticks, [], false⟩ ∧
      chasing c = ⟨c.nav, c.velX, []⟩ ∧
      ranged_attack r = ⟨r.ticks, r.velX, [], false, none, false⟩ := by
  refine ⟨?_, ?_, ?_⟩ <;> simp [walking, chasing, ranged_attack, hw, hc, hr]

/-- C9 witness instance: a concrete knocked-back enemy in all three
handlers is left exactly as it was, with no effects. -/
theorem knockback_excludes_handlers_witness :
    walking ⟨true, Navigation.Grounded, Facing.Left, 8, 3, 40⟩ =
        ⟨Navigation.Grounded, Facing.Left, 8, 3, [], false⟩ ∧
      chasing ⟨true, some 0, Facing.Left, Role.Melee, Range.Aggro,
          Navigation.Grounded, 8⟩ =
        ⟨Navigation.Grounded, 8, []⟩ ∧
      ranged_attack ⟨true, 47, true, Range.Aggro, 3, fun _ => none,
          2, 100, 7, 100⟩ =
        ⟨47, 3, [], false, none, false⟩ :=
  knockback_excludes_handlers
    ⟨true, Navigation.Grounded, Facing.Left, 8, 3, 40⟩
    ⟨true, some 0, Facing.Left, Role.Melee, Range.Aggro,
      Navigation.Grounded, 8⟩
    ⟨true, 47, true, Range.Aggro, 3, fun _ => none, 2, 100, 7, 100⟩
    rfl rfl rfl

/-! ## Spawner (enemy.rs lines 145-217) and enemy setup (lines 219-320). -/

/-- `struct SpawnSlot`. -/
structure SpawnSlot where
  enemy : Option Nat
  cooldown_ticks : Nat
deriving DecidableEq, Repr

/-- `EnemySpawner::COOLDOWN`. -/
def EnemySpawner.COOLDOWN : Nat := 620

/-- `EnemySpawner::RANGE`. -/
def EnemySpawner.RANGE : ℚ := 500

/-- What one tick of `spawn_enemy` observes for one spawner: the player's
distance from the spawner when a single live player exists, and which
entity ids currently carry `Dead` (with `Enemy`, without `EnemySpawner`). -/
structure SpawnEnv where
  playerDist : Option ℚ
  isDead : Nat → Bool

/-- `should_spawn` of enemy.rs lines 189-197: no player, or the player
strictly farther than `RANGE`. -/
def shouldSpawn (env : SpawnEnv) : Bool :=
  match env.playerDist with
  | some d => decide (EnemySpawner.RANGE < d)
  | none => true

/-- A spawned `EnemyBlueprint`: the minted entity id and its `bonus_hp`. -/
structure Blueprint where
  id : Nat
  bonus_hp : Nat
deriving DecidableEq, Repr

/-- Result of processing one slot. -/
structure SlotStepOut where
  slot : SpawnSlot
  killed : Nat
  fresh : Nat
  spawned : Option Blueprint
deriving DecidableEq, Repr

/-- Per-slot body of the `for slot in spawner.slots` loop, enemy.rs lines
179-215: an occupied slot whose occupant now carries `Dead` is freed and
the spawner's kill counter incremented; an empty slot increments its
cooldown and, once the cooldown reaches `COOLDOWN` with the player absent
or out of range, spawns a blueprint with `bonus_hp = 20 · killed`, becomes
occupied by it and resets its cooldown to 0. `fresh` is the entity id
`commands.spawn` would mint. -/
def slotStep (env : SpawnEnv) (killed fresh : Nat) (s : SpawnSlot) :
    SlotStepOut :=
  match s.enemy with
  | some e =>
    if env.isDead e then ⟨⟨none, s.cooldown_ticks⟩, killed + 1, fresh, none⟩
    else ⟨s, killed, fresh, none⟩
  | none =>
    let cd := s.cooldown_ticks + 1
    if EnemySpawner.COOLDOWN ≤ cd ∧ shouldSpawn env = true then
      ⟨⟨some fresh, 0⟩, killed, fresh + 1, some ⟨fresh, 20 * killed⟩⟩
    else ⟨⟨none, cd⟩, killed, fresh, none⟩

/-- Result of one `spawn_enemy` pass over one spawner. -/
structure SpawnerOut where
  slots : List SpawnSlot
  killed : Nat
  fresh : Nat
  spawned : List Blueprint
deriving DecidableEq, Repr

/-- The slot loop, threading the kill counter and fresh ids left to
right as the source's `iter_mut` does. -/
def slotsFold (env : SpawnEnv) :
    List SpawnSlot → Nat → Nat → SpawnerOut
  | [], killed, fresh => ⟨[], killed, fresh, []⟩
  | s :: rest, killed, fresh =>
    let r := slotStep env killed fresh s
    let rr := slotsFold env rest r.killed r.fresh
    ⟨r.slot :: rr.slots, rr.killed, rr.fresh, r.spawned.toList ++ rr.spawned⟩

/-- One tick of `spawn_enemy` for one spawner, enemy.rs lines 145-217:
ensure a first slot exists with its cooldown pre-satisfied; append one slot
while the kill count exceeds the slot count; then run the per-slot loop. -/
def spawn_enemy (env : SpawnEnv) (fresh : Nat) (slots : List SpawnSlot)
    (killed : Nat) : SpawnerOut :=
  let slots1 :=
    if slots.isEmpty then slots ++ [⟨none, EnemySpawner.COOLDOWN⟩] else slots
  let slots2 :=
    if slots1.length < killed then slots1 ++ [⟨none, 0⟩] else slots1
  slotsFold env slots2 killed fresh

/-- `slotsFold` writes every slot back in place: the count is preserved. -/
theorem slotsFold_length (env : SpawnEnv) :
    ∀ l : List SpawnSlot, ∀ killed fresh : Nat,
      (slotsFold env l killed fresh).slots.length = l.length := by
  intro l
  induction l with
  | nil => intro killed fresh; rfl
  | cons s rest ih =>
    intro killed fresh
    simp [slotsFold, ih]

/-- The timeline of a single slot under a stream of per-tick environments;
the fresh id minted at step `k` is taken to be `k` (ids only occupy the
slot, they never influence the spawn decision). -/
def slotAt (envs : Nat → SpawnEnv) (s0 : SpawnSlot) : Nat → SpawnSlot
  | 0 => s0
  | k + 1 => (slotStep (envs k) 0 k (slotAt envs s0 k)).slot

/-- Whether the slot spawns at step `k` of its timeline. -/
def spawnsAt (envs : Nat → SpawnEnv) (s0 : SpawnSlot) (k : Nat) : Bool :=
  ((slotStep (envs k) 0 k (slotAt envs s0 k)).spawned).isSome

/-- One slot step raises the cooldown by at most one. -/
theorem slotStep_cooldown_le (env : SpawnEnv) (killed fresh : Nat)
    (s : SpawnSlot) :
    (slotStep env killed fresh s).slot.cooldown_ticks ≤
      s.cooldown_ticks + 1 := by
  unfold slotStep
  cases s.enemy with
  | some e =>
    by_cases hd : env.isDead e = true <;> simp [hd]
  | none =>
    by_cases hc : EnemySpawner.COOLDOWN ≤ s.cooldown_ticks + 1 ∧
        shouldSpawn env = true <;> simp [hc]

/-- Any slot that spawns becomes occupied by the fresh id with cooldown 0. -/
theorem slotStep_spawn_slot (env : SpawnEnv) (killed fresh : Nat)
    (s : SpawnSlot) (h : (slotStep env killed fresh s).spawned.isSome = true) :
    (slotStep env killed fresh s).slot = ⟨some fresh, 0⟩ := by
  rcases s with ⟨en, cd⟩
  cases en with
  | some e =>
    by_cases hd : env.isDead e = true <;> simp [slotStep, hd] at h
  | none =>
    by_cases hc : EnemySpawner.COOLDOWN ≤ cd + 1 ∧ shouldSpawn env = true
    · simp [slotStep, hc]
    · simp [slotStep, hc] at h

/-- Any slot that spawns was empty, had its incremented cooldown reach
`COOLDOWN`, and passed the player-proximity gate. -/
theorem slotStep_spawn_req (env : SpawnEnv) (killed fresh : Nat)
    (s : SpawnSlot) (h : (slotStep env killed fresh s).spawned.isSome = true) :
    s.enemy = none ∧ EnemySpawner.COOLDOWN ≤ s.cooldown_ticks + 1 ∧
      shouldSpawn env = true := by
  rcases s with ⟨en, cd⟩
  cases en with
  | some e =>
    by_cases hd : env.isDead e = true <;> simp [slotStep, hd] at h
  | none =>
    by_cases hc : EnemySpawner.COOLDOWN ≤ cd + 1 ∧ shouldSpawn env = true
    · exact ⟨rfl, hc.1, hc.2⟩
    · simp [slotStep, hc] at h

/-- The spawned blueprint's `bonus_hp` is 20 times the kill count threaded
into the slot at spawn time. -/
theorem slotStep_spawn_bonus (env : SpawnEnv) (killed fresh : Nat)
    (s : SpawnSlot) (bp : Blueprint)
    (h : (slotStep env killed fresh s).spawned = some bp) :
    bp = ⟨fresh, 20 * killed⟩ := by
  rcases s with ⟨en, cd⟩
  cases en with
  | some e =>
    by_cases hd : env.isDead e = true <;> simp [slotStep, hd] at h
  | none =>
    by_cases hc : EnemySpawner.COOLDOWN ≤ cd + 1 ∧ shouldSpawn env = true
    · simp [slotStep, hc] at h
      exact h.symm
    · simp [slotStep, hc] at h

/-- Spawning resets the slot's cooldown to zero. -/
theorem spawnsAt_cooldown_zero (envs : Nat → SpawnEnv) (s0 : SpawnSlot)
    (k : Nat) (h : spawnsAt envs s0 k = true) :
    (slotAt envs s0 (k + 1)).cooldown_ticks = 0 := by
  unfold spawnsAt at h
  show (slotStep (envs k) 0 k (slotAt envs s0 k)).slot.cooldown_ticks = 0
  rw [slotStep_spawn_slot (envs k) 0 k (slotAt envs s0 k) h]

/-- After a spawn at step `k`, the cooldown `m` steps later is at most `m`. -/
theorem slotAt_cooldown_bound (envs : Nat → SpawnEnv) (s0 : SpawnSlot)
    (k : Nat) (h : spawnsAt envs s0 k = true) :
    ∀ m : Nat, (slotAt envs s0 (k + 1 + m)).cooldown_ticks ≤ m := by
  intro m
  induction m with
  | zero =>
    simpa using Nat.le_of_eq (spawnsAt_cooldown_zero envs s0 k h)
  | succ n ih =>
    have hstep := slotStep_cooldown_le (envs (k + 1 + n)) 0 (k + 1 + n)
      (slotAt envs s0 (k + 1 + n))
    have : k + 1 + (n + 1) = (k + 1 + n) + 1 := by omega
    rw [this]
    calc (slotAt envs s0 ((k + 1 + n) + 1)).cooldown_ticks
        ≤ (slotAt envs s0 (k + 1 + n)).cooldown_ticks + 1 := hstep
      _ ≤ n + 1 := by omega

/-- A spawn at step `j` needs the incremented cooldown to reach 620. -/
theorem spawnsAt_cooldown_req (envs : Nat → SpawnEnv) (s0 : SpawnSlot)
    (j : Nat) (h : spawnsAt envs s0 j = true) :
    EnemySpawner.COOLDOWN ≤ (slotAt envs s0 j).cooldown_ticks + 1 :=
  (slotStep_spawn_req (envs j) 0 j (slotAt envs s0 j) h).2.1

/-- C6: the slot count never decreases across a spawner tick; a slot spawns
only when it is empty, its incremented cooldown has reached 620 and the
player is absent or farther than 500, upon which it becomes occupied with
cooldown 0; consequently two spawns of the same slot are at least 620 ticks
apart; and the first slot of a fresh spawner is created with its cooldown
pre-satisfied, so it spawns immediately when the proximity gate passes. -/
theorem spawner_monotone_and_window :
    (∀ env : SpawnEnv, ∀ fresh : Nat, ∀ slots : List SpawnSlot,
      ∀ killed : Nat,
        slots.length ≤ (spawn_enemy env fresh slots killed).slots.length) ∧
      (∀ env : SpawnEnv, ∀ killed fresh : Nat, ∀ s : SpawnSlot,
        ∀ bp : Blueprint, (slotStep env killed fresh s).spawned = some bp →
          s.enemy = none ∧
            EnemySpawner.COOLDOWN ≤ s.cooldown_ticks + 1 ∧
            shouldSpawn env = true ∧
            (slotStep env killed fresh s).slot = ⟨some fresh, 0⟩) ∧
      (∀ envs : Nat → SpawnEnv, ∀ s0 : SpawnSlot, ∀ i j : Nat,
        spawnsAt envs s0 i = true → spawnsAt envs s0 j = true → i < j →
        i + 620 ≤ j) ∧
      (∀ env : SpawnEnv, ∀ fresh killed : Nat, shouldSpawn env = true →
        killed ≤ 1 →
        (spawn_enemy env fresh [] killed).spawned =
          [⟨fresh, 20 * killed⟩]) := by
  refine ⟨?_, ?_, ?_, ?_⟩
  · intro env fresh slots killed
    unfold spawn_enemy
    rw [slotsFold_length]
    by_cases h1 : slots.isEmpty <;>
      simp [h1] <;> split <;> simp [List.length_append]
  · intro env killed fresh s bp h
    have hsome : (slotStep env killed fresh s).spawned.isSome = true := by
      rw [h]; rfl
    obtain ⟨h1, h2, h3⟩ := slotStep_spawn_req env killed fresh s hsome
    exact ⟨h1, h2, h3, slotStep_spawn_slot env killed fresh s hsome⟩
  · intro envs s0 i j hi hj hij
    have hreq := spawnsAt_cooldown_req envs s0 j hj
    have hbound := slotAt_cooldown_bound envs s0 i hi (j - (i + 1))
    have hidx : i + 1 + (j - (i + 1)) = j := by omega
    rw [hidx] at hbound
    have : EnemySpawner.COOLDOWN = 620 := rfl
    omega
  · intro env fresh killed hs hk
    have hnl : ¬ (1 < killed) := by omega
    simp [spawn_enemy, slotsFold, slotStep, EnemySpawner.COOLDOWN, hs, hnl]

/-- Witness environment stream: no live player, and every occupant is
reported dead as soon as it is looked at. -/
def envsW : Nat → SpawnEnv := fun _ => ⟨none, fun _ => true⟩

/-- C6 witness instance: a slot one tick short of its cooldown spawns at
step 0 under the spawn conditions, and — its occupant dying immediately —
spawns again no earlier than step 620 (here: step 621). -/
theorem spawner_monotone_and_window_witness :
    spawnsAt envsW ⟨none, 619⟩ 0 = true ∧
      spawnsAt envsW ⟨none, 619⟩ 621 = true ∧
      (slotStep (envsW 0) 4 9 ⟨none, 619⟩).spawned = some ⟨9, 80⟩ ∧
      (slotStep (envsW 0) 4 9 ⟨none, 619⟩).slot = ⟨some 9, 0⟩ ∧
      (0 : Nat) + 620 ≤ 621 ∧
      (spawn_enemy (envsW 0) 11 [] 0).spawned = [⟨11, 0⟩] := by
  refine ⟨by decide, by decide, by decide, ?_, ?_, ?_⟩
  · exact (spawner_monotone_and_window.2.1 (envsW 0) 4 9 ⟨none, 619⟩
      ⟨9, 80⟩ (by decide)).2.2.2
  · exact spawner_monotone_and_window.2.2.1 envsW ⟨none, 619⟩ 0 621
      (by decide) (by decide) (by decide)
  · exact spawner_monotone_and_window.2.2.2 (envsW 0) 11 0 rfl
      (by omega)

/-- The component bundle `setup_enemy` inserts on a freshly observed
blueprint, enemy.rs lines 236-283, at the granularity of the claims; the
physics collider and shape caster are omitted, and the sampled
`Role::random()` is a parameter. -/
structure EnemySetup where
  navigation : Navigation
  range : Range
  target : Option Nat
  healthCurrent : Nat
  healthMax : Nat
  role : Role
  facing : Facing
  patrolling : Bool
  idle : Bool
  waiting : Option (Nat × Nat)
  aggroed : Bool
  walking : Bool
  chasing : Bool
  meleeAttacking : Bool
  rangedAttacking : Bool
  defending : Bool
  dead : Bool
  decaying : Bool
  addQueue : List StateVal
  transQueue : List TransitionReq
  velX : ℚ
  velY : ℚ
deriving DecidableEq, Repr

/-- `setup_enemy`, enemy.rs lines 219-320: the full bundle attached to a
blueprint the first tick it is observed — `Navigation::Grounded`,
`Range::None`, `Target(None)`, `Health{100+bonus, 100+bonus}`, a random
role, `Facing::Right`, `Patrolling`, `Idle`, `Waiting::new(12)` (= ticks 0,
max 12), default (empty) `AddQueue` and `TransitionQueue`, and
`LinearVelocity(Vec2::ZERO)` inside the physics bundle. -/
def setup_enemy (bonus_hp : Nat) (role : Role) : EnemySetup :=
  { navigation := Navigation.Grounded, range := Range.None, target := none,
    healthCurrent := 100 + bonus_hp, healthMax := 100 + bonus_hp,
    role := role, facing := Facing.Right, patrolling := true, idle := true,
    waiting := some (0, 12), aggroed := false, walking := false,
    chasing := false, meleeAttacking := false, rangedAttacking := false,
    defending := false, dead := false, decaying := false, addQueue := [],
    transQueue := [], velX := 0, velY := 0 }

/-- C10: a freshly set-up agent starts in exactly one configuration —
Patrolling with Idle and Waiting{0,12}, Range::None, no Target,
Facing::Right, Navigation::Grounded, zero velocity, empty queues, and
Health current = max = 100 + bonus_hp — and the blueprint spawned from a
slot carries `bonus_hp = 20 ·` the spawner's kill count at spawn time, so
its health is `100 + 20 · killed`. -/
theorem setup_enemy_initial_config :
    (∀ bonus : Nat, ∀ role : Role,
      setup_enemy bonus role =
        { navigation := Navigation.Grounded, range := Range.None,
          target := none, healthCurrent := 100 + bonus,
          healthMax := 100 + bonus, role := role, facing := Facing.Right,
          patrolling := true, idle := true, waiting := some (0, 12),
          aggroed := false, walking := false, chasing := false,
          meleeAttacking := false, rangedAttacking := false,
          defending := false, dead := false, decaying := false,
          addQueue := [], transQueue := [], velX := 0, velY := 0 }) ∧
      (∀ env : SpawnEnv, ∀ killed fresh : Nat, ∀ s : SpawnSlot,
        ∀ bp : Blueprint, ∀ role : Role,
        (slotStep env killed fresh s).spawned = some bp →
        bp.bonus_hp = 20 * killed ∧
          (setup_enemy bp.bonus_hp role).healthCurrent =
            100 + 20 * killed ∧
          (setup_enemy bp.bonus_hp role).healthMax = 100 + 20 * killed) := by
  refine ⟨fun bonus role => rfl, ?_⟩
  intro env killed fresh s bp role h
  have hbp := slotStep_spawn_bonus env killed fresh s bp h
  rw [hbp]
  exact ⟨rfl, rfl, rfl⟩

/-- C10 witness instance: a spawn from a slot of a spawner with 3 kills
mints `bonus_hp = 60`, hence starting health 160. -/
theorem setup_enemy_initial_config_witness :
    (slotStep (envsW 0) 3 9 ⟨none, 619⟩).spawned = some ⟨9, 60⟩ ∧
      (setup_enemy (60 : Nat) Role.Melee).healthCurrent = 100 + 20 * 3 ∧
      (setup_enemy (60 : Nat) Role.Melee).healthMax = 100 + 20 * 3 := by
  refine ⟨by decide, ?_, ?_⟩
  · exact (setup_enemy_initial_config.2 (envsW 0) 3 9 ⟨none, 619⟩ ⟨9, 60⟩
      Role.Melee (by decide)).2.1
  · exact (setup_enemy_initial_config.2 (envsW 0) 3 9 ⟨none, 619⟩ ⟨9, 60⟩
      Role.Melee (by decide)).2.2

end TheSeeker
